import Mathlib

/-!
Shallow embedding of `src/proto/h2/client.rs` (hyper's HTTP/2 client
orchestration core): the handshake/setup routine, the background
connection-driver task (`conn_task`) and the dispatch loop
(`ClientTask::poll`).  Collaborator futures (readiness of the h2
multiplexer, the inbound request channel, the connection-EOF oneshot, the
body pipe's first poll, `send_request`'s outcome) are supplied by an oracle
trace; each dispatch-loop iteration consumes one oracle entry and may emit
observable events (submissions, callback completions, spawned tasks).
-/

namespace HyperH2

/-- `crate::common::Never`: an uninhabited type; a channel of `Never` can
never carry a value, only be closed. -/
def Never := Empty

/-- An h2 protocol reason code; `h2::Reason::NO_ERROR` is code 0. -/
abbrev ReasonCode := Nat

/-- `h2::Reason::NO_ERROR`, the graceful "no error" closure reason. -/
def NO_ERROR : ReasonCode := 0

/-- An h2-level error as consulted by this module: `err.reason()` yields an
optional protocol reason code. -/
structure H2Error where
  reason : Option ReasonCode
deriving DecidableEq

/-- `crate::Error` as produced in this module: only `Error::new_h2`. -/
inductive HyperError
  | h2 (e : H2Error)
deriving DecidableEq

/-- HTTP method, abstracted to the only property this module consults. -/
structure Method where
  payloadSemantics : Bool
deriving DecidableEq

/-- Modelled from the spec: the header map restricted to the fields this
module touches — the content-length entry, and the connection-lifecycle
entries that `strip_connection_headers` (in the sibling module, outside
this file) removes. -/
structure Headers where
  content_length : Option Nat
  connection_headers : List String
deriving DecidableEq

/-- Modelled from the spec: `super::strip_connection_headers` removes the
connection-lifecycle header fields and leaves every other field, the
content-length included, untouched. -/
def strip_connection_headers (h : Headers) : Headers :=
  { h with connection_headers := [] }

/-- Modelled from the spec: `headers::set_content_length_if_missing` (in the
`headers` module, outside this file) stamps the content-length header only
when none is already present. -/
def set_content_length_if_missing (h : Headers) (len : Nat) : Headers :=
  if h.content_length.isSome then h else { h with content_length := some len }

/-- Modelled from the spec: `headers::method_has_defined_payload_semantics`
(in the `headers` module, outside this file), abstracted to a per-method
flag — true for POST-like methods, false for GET-like ones. -/
def method_has_defined_payload_semantics (m : Method) : Bool :=
  m.payloadSemantics

/-- The head of a request: its method and headers. -/
structure RequestHead where
  method : Method
  headers : Headers
deriving DecidableEq

/-- A request body as consulted by the dispatch loop: `size_hint().exact()`
and `is_end_stream()`. -/
structure ReqBody where
  size_hint_exact : Option Nat
  is_end_stream : Bool
deriving DecidableEq

/-- The completion callback of one queued request: an identifying tag plus
the `is_canceled` flag the dispatch loop queries. -/
structure Callback where
  id : Nat
  is_canceled : Bool
deriving DecidableEq

/-- One element of the inbound request queue: `(req, cb)`. -/
structure PendingReq where
  head : RequestHead
  body : ReqBody
  cb : Callback
deriving DecidableEq

/-- Lines 173–180 of `ClientTask::poll`: split the request into head and
body, strip connection headers, and — when the body declares an exact
length — stamp a content-length header when the length is nonzero or the
method has defined payload semantics. -/
def processReq (head : RequestHead) (body : ReqBody) : RequestHead :=
  let hs := strip_connection_headers head.headers
  let hs :=
    match body.size_hint_exact with
    | some len =>
      if len ≠ 0 || method_has_defined_payload_semantics head.method then
        set_content_length_if_missing hs len
      else hs
    | none => hs
  { head with headers := hs }

/-- Modelled from the spec: the flow-control sampler handle attached to
response bodies; `bdp::channel` yields the enabled handle, `bdp::disabled()`
the no-op one (the `bdp` module is outside this file). -/
inductive Sampler
  | enabled
  | disabled
deriving DecidableEq

/-- Observable events of one dispatch-loop execution. -/
inductive Event
  /-- `self.h2_tx.send_request(req, eos)` was called with this processed
  request head and end-of-stream flag, on behalf of callback `id`. -/
  | submitAttempt (id : Nat) (head : RequestHead) (eos : Bool)
  /-- A dequeued item whose callback was already canceled was discarded
  (dropping its callback). -/
  | discardedCanceled (id : Nat)
  /-- `cb.send(Err((e, maybeResponse)))`: an immediate error delivery. -/
  | cbSendErr (id : Nat) (e : H2Error) (maybeResponse : Option Unit)
  /-- The body-piping operation was handed to the executor;
  `holdsLiveness` records that it owns a cloned liveness reference
  (`conn_drop_ref.clone()`) dropped only when the pipe completes. -/
  | spawnedPipe (id : Nat) (holdsLiveness : Bool)
  /-- `self.executor.execute(cb.send_when(fut))`: the response-delivery
  operation was spawned, its response body carrying sampler `bdp`. -/
  | spawnedResponseDelivery (id : Nat) (bdp : Sampler)
  /-- A request still queued when the task terminated was dropped with the
  inbound queue. -/
  | queuedDropped (id : Nat)
deriving DecidableEq

/-- Result of `self.h2_tx.poll_ready(cx)`. -/
inductive PollReadyRes
  | pending
  | ok
  | err (e : H2Error)
deriving DecidableEq

/-- The oracle entry consumed by one dispatch-loop iteration, supplying the
outcome of each collaborator poll that iteration may make. -/
structure CtrlEnv where
  /-- outcome of `h2_tx.poll_ready`. -/
  ready : PollReadyRes
  /-- when the queue is empty: `true` means `poll_next` returns
  `Ready(None)` (all producer handles dropped), `false` means `Pending`. -/
  producerClosed : Bool
  /-- outcome of `h2_tx.send_request`: `some e` is failure with `e`. -/
  sendErr : Option H2Error
  /-- whether the body pipe's single eager synchronous poll completes. -/
  pipeFirstPollReady : Bool
  /-- when `poll_next` is `Pending`: whether `conn_eof` resolves
  (the conn task is gone) rather than being `Pending`. -/
  connEofClosed : Bool
deriving DecidableEq

/-- Terminal status of one `ClientTask::poll` execution.
`shutdown` is `Poll::Ready(Ok(Dispatched::Shutdown))` — a success value;
`failed e` is `Poll::Ready(Err(e))`; `pending` is `Poll::Pending`;
`fuelOut` means the oracle trace was exhausted mid-loop. -/
inductive RunResult
  | pending
  | shutdown
  | failed (e : HyperError)
  | fuelOut
deriving DecidableEq

/-- Output of one dispatch-loop execution: the events emitted, the terminal
status, and the requests still queued. -/
structure RunOut where
  events : List Event
  result : RunResult
  remaining : List PendingReq
deriving DecidableEq

/-- Shallow embedding of the loop of `ClientTask::poll` (lines 152–244).
`bdp` is the task's sampler handle, the oracle trace supplies collaborator
poll results (one entry per iteration), and the queue holds the buffered
inbound requests in FIFO order. -/
def dispatchRun (bdp : Sampler) : List CtrlEnv → List PendingReq → RunOut
  | [], q => ⟨[], .fuelOut, q⟩
  | c :: cs, q =>
    match c.ready with
    | .pending => ⟨[], .pending, q⟩
    | .err e =>
      if e.reason = some NO_ERROR then ⟨[], .shutdown, q⟩
      else ⟨[], .failed (.h2 e), q⟩
    | .ok =>
      match q with
      | [] =>
        if c.producerClosed then ⟨[], .shutdown, []⟩
        else if c.connEofClosed then ⟨[], .shutdown, []⟩
        else ⟨[], .pending, []⟩
      | r :: q' =>
        if r.cb.is_canceled then
          let out := dispatchRun bdp cs q'
          ⟨.discardedCanceled r.cb.id :: out.events, out.result, out.remaining⟩
        else
          let req := processReq r.head r.body
          let eos := r.body.is_end_stream
          match c.sendErr with
          | some e =>
            let out := dispatchRun bdp cs q'
            ⟨.submitAttempt r.cb.id req eos :: .cbSendErr r.cb.id e none :: out.events,
              out.result, out.remaining⟩
          | none =>
            let pipeEvents :=
              if eos then []
              else if c.pipeFirstPollReady then []
              else [Event.spawnedPipe r.cb.id true]
            let out := dispatchRun bdp cs q'
            ⟨.submitAttempt r.cb.id req eos ::
                pipeEvents ++ [Event.spawnedResponseDelivery r.cb.id bdp] ++ out.events,
              out.result, out.remaining⟩

/-- The events of the step that processes one non-canceled request whose
submission succeeds (lines 181–227). -/
def successStepEvents (bdp : Sampler) (pipeFirstPollReady : Bool) (r : PendingReq) :
    List Event :=
  .submitAttempt r.cb.id (processReq r.head r.body) r.body.is_end_stream ::
    (if r.body.is_end_stream then []
      else if pipeFirstPollReady then []
      else [Event.spawnedPipe r.cb.id true])
    ++ [Event.spawnedResponseDelivery r.cb.id bdp]

/-- Modelled from the spec: when the dispatch task terminates, the inbound
queue receiver is dropped with it, and every request still queued has its
callback completed (with an error) by that drop. -/
def fullRun (bdp : Sampler) (cs : List CtrlEnv) (q : List PendingReq) :
    List Event × RunResult :=
  let out := dispatchRun bdp cs q
  match out.result with
  | .shutdown =>
    (out.events ++ out.remaining.map (fun r => .queuedDropped r.cb.id), .shutdown)
  | .failed e =>
    (out.events ++ out.remaining.map (fun r => .queuedDropped r.cb.id), .failed e)
  | res => (out.events, res)

/-- Modelled from the spec: the events that complete a request's callback
exactly once — an immediate error send, the spawned response-delivery
operation (which invokes the callback once with the response or with the
error), the drop of an already-canceled callback, and the drop of a
still-queued request when the task terminates. -/
def isInvocation (id : Nat) : Event → Bool
  | .cbSendErr i _ _ => i == id
  | .spawnedResponseDelivery i _ => i == id
  | .discardedCanceled i => i == id
  | .queuedDropped i => i == id
  | _ => false

/-- Number of callback invocations for request `id` in an event list. -/
def countInv (id : Nat) (evs : List Event) : Nat :=
  evs.countP (isInvocation id)

/-- Number of queued requests carrying callback `id`. -/
def countIds (id : Nat) (q : List PendingReq) : Nat :=
  q.countP (fun r => r.cb.id == id)

/-- Handshake configuration (`Config`). -/
structure Config where
  adaptive_window : Bool
  initial_conn_window_size : Nat
  initial_stream_window_size : Nat
deriving DecidableEq

/-- `DEFAULT_CONN_WINDOW`: 5 MiB. -/
def DEFAULT_CONN_WINDOW : Nat := 1024 * 1024 * 5

/-- `DEFAULT_STREAM_WINDOW`: 2 MiB. -/
def DEFAULT_STREAM_WINDOW : Nat := 1024 * 1024 * 2

/-- `Config::default()`. -/
def Config.default : Config :=
  ⟨false, DEFAULT_CONN_WINDOW, DEFAULT_STREAM_WINDOW⟩

/-- What `handshake` assembles after a successful h2 handshake: the sampler
handle stored in the `ClientTask`, and whether the connection-driving
operation was wrapped with the estimator poll. -/
structure HandshakeTask where
  bdp : Sampler
  connWrapped : Bool
deriving DecidableEq

/-- Lines 78–111 of `handshake`, after the h2 handshake succeeded.
`ping_pong` is `conn.ping_pong()`, an `Option`; with `adaptive_window` the
code calls `.unwrap()` on it, which panics on `none` — modelled as the
overall result `none`.  With `adaptive_window` it builds the bdp channel
and wraps the connection future; otherwise it uses `bdp::disabled()` and
the unwrapped connection future. -/
def handshake (config : Config) (ping_pong : Option Unit) : Option HandshakeTask :=
  if config.adaptive_window then
    match ping_pong with
    | some _ => some ⟨.enabled, true⟩
    | none => none
  else
    some ⟨.disabled, false⟩

/-- Observable calls made by one poll of the connection-driving operation. -/
inductive ConnEvent
  | setTargetWindowSize (w : Nat)
  | setInitialWindowSize (w : Nat)
  | polledConnProgress
deriving DecidableEq

/-- One poll of the connection-driving operation (lines 82–92 when wrapped,
the bare connection future when not).  When wrapped, it first polls the
estimator: on `Ready wnd` it calls `set_target_window_size(wnd)` and
`set_initial_window_size(wnd)?` (whose failure ends the poll with an error,
so the connection's own progress is not polled), then polls the
connection.  When unwrapped, it only polls the connection. -/
def connDrivingPoll (wrapped : Bool) (estimate : Option Nat)
    (setInitialOk : Bool) : List ConnEvent :=
  if wrapped then
    match estimate with
    | some wnd =>
      [ConnEvent.setTargetWindowSize wnd, ConnEvent.setInitialWindowSize wnd]
        ++ (if setInitialOk then [ConnEvent.polledConnProgress] else [])
    | none => [ConnEvent.polledConnProgress]
  else [ConnEvent.polledConnProgress]

/-- Outcome of the connection future when it finishes first in the select. -/
inductive ConnFirst
  | success
  | failure
deriving DecidableEq

/-- Which side of `future::select(conn, drop_rx)` resolves first. -/
inductive SelectFirst
  | connFinished (o : ConnFirst)
  | livenessZero
deriving DecidableEq

/-- Explicit actions the connection-driver task can take after its select
resolves.  The shutdown sender is a `oneshot::Sender<Never>`, so a sent
value would have to inhabit `Never`. -/
inductive ConnTaskEvent
  | droppedShutdownSender
  | sentShutdownValue (v : Never)
  | polledConnToCompletion

/-- Lines 114–132: `conn_task` races `conn` against `drop_rx`.  If `conn`
finishes first (ok or err) the task just ends; if the liveness-zero event
fires first it drops `cancel_tx` and then awaits `conn` to completion. -/
def conn_task (sel : SelectFirst) : List ConnTaskEvent :=
  match sel with
  | .connFinished _ => []
  | .livenessZero =>
    [ConnTaskEvent.droppedShutdownSender, ConnTaskEvent.polledConnToCompletion]

/-! ### Structure lemmas for the dispatch loop -/

theorem dispatchRun_canceled_eq (bdp : Sampler) (c : CtrlEnv) (cs : List CtrlEnv)
    (r : PendingReq) (q' : List PendingReq)
    (hready : c.ready = .ok) (hcan : r.cb.is_canceled = true) :
    dispatchRun bdp (c :: cs) (r :: q') =
      ⟨.discardedCanceled r.cb.id :: (dispatchRun bdp cs q').events,
        (dispatchRun bdp cs q').result, (dispatchRun bdp cs q').remaining⟩ := by
  simp [dispatchRun, hready, hcan]

theorem dispatchRun_sendErr_eq (bdp : Sampler) (c : CtrlEnv) (cs : List CtrlEnv)
    (r : PendingReq) (q' : List PendingReq) (e : H2Error)
    (hready : c.ready = .ok) (hcan : r.cb.is_canceled = false)
    (hsend : c.sendErr = some e) :
    dispatchRun bdp (c :: cs) (r :: q') =
      ⟨.submitAttempt r.cb.id (processReq r.head r.body) r.body.is_end_stream ::
          .cbSendErr r.cb.id e none :: (dispatchRun bdp cs q').events,
        (dispatchRun bdp cs q').result, (dispatchRun bdp cs q').remaining⟩ := by
  simp [dispatchRun, hready, hcan, hsend]

theorem dispatchRun_success_eq (bdp : Sampler) (c : CtrlEnv) (cs : List CtrlEnv)
    (r : PendingReq) (q' : List PendingReq)
    (hready : c.ready = .ok) (hcan : r.cb.is_canceled = false)
    (hsend : c.sendErr = none) :
    dispatchRun bdp (c :: cs) (r :: q') =
      ⟨successStepEvents bdp c.pipeFirstPollReady r ++ (dispatchRun bdp cs q').events,
        (dispatchRun bdp cs q').result, (dispatchRun bdp cs q').remaining⟩ := by
  simp [dispatchRun, hready, hcan, hsend, successStepEvents, List.append_assoc]

/-- Each dequeued request contributes exactly one callback-invocation event;
the requests never dequeued stay in `remaining`. -/
theorem countInv_add_remaining (bdp : Sampler) (cs : List CtrlEnv)
    (q : List PendingReq) (id : Nat) :
    countInv id (dispatchRun bdp cs q).events
        + countIds id (dispatchRun bdp cs q).remaining
      = countIds id q := by
  induction cs generalizing q with
  | nil => simp [dispatchRun, countInv]
  | cons c cs ih =>
    cases hready : c.ready with
    | pending => simp [dispatchRun, hready, countInv]
    | err e =>
      by_cases hr : e.reason = some NO_ERROR <;>
        simp [dispatchRun, hready, hr, countInv]
    | ok =>
      cases q with
      | nil =>
        by_cases hp : c.producerClosed <;> by_cases hc : c.connEofClosed <;>
          simp [dispatchRun, hready, hp, hc, countInv, countIds]
      | cons r q' =>
        have h := ih q'
        by_cases hid : r.cb.id = id
        · by_cases hcan : r.cb.is_canceled
          · simp [dispatchRun, hready, hcan, countInv, countIds, List.countP_cons,
              isInvocation, hid] at h ⊢
            omega
          · cases hsend : c.sendErr with
            | some e =>
              simp [dispatchRun, hready, hcan, hsend, countInv, countIds,
                List.countP_cons, isInvocation, hid] at h ⊢
              omega
            | none =>
              by_cases h1 : r.body.is_end_stream <;>
                by_cases h2 : c.pipeFirstPollReady <;>
                · simp [dispatchRun, hready, hcan, hsend, countInv, countIds,
                    List.countP_cons, List.countP_append, isInvocation, hid,
                    h1, h2] at h ⊢
                  omega
        · by_cases hcan : r.cb.is_canceled
          · simp [dispatchRun, hready, hcan, countInv, countIds, List.countP_cons,
              isInvocation, hid] at h ⊢
            omega
          · cases hsend : c.sendErr with
            | some e =>
              simp [dispatchRun, hready, hcan, hsend, countInv, countIds,
                List.countP_cons, isInvocation, hid] at h ⊢
              omega
            | none =>
              by_cases h1 : r.body.is_end_stream <;>
                by_cases h2 : c.pipeFirstPollReady <;>
                · simp [dispatchRun, hready, hcan, hsend, countInv, countIds,
                    List.countP_cons, List.countP_append, isInvocation, hid,
                    h1, h2] at h ⊢
                  omega

/-- A submission event can only originate from a request in the queue. -/
theorem submitAttempt_id_mem (bdp : Sampler) (cs : List CtrlEnv)
    (q : List PendingReq) (id : Nat) (hd : RequestHead) (b : Bool)
    (hmem : Event.submitAttempt id hd b ∈ (dispatchRun bdp cs q).events) :
    id ∈ q.map (fun r => r.cb.id) := by
  induction cs generalizing q with
  | nil => simp [dispatchRun] at hmem
  | cons c cs ih =>
    cases hready : c.ready with
    | pending => simp [dispatchRun, hready] at hmem
    | err e =>
      by_cases hr : e.reason = some NO_ERROR <;>
        simp [dispatchRun, hready, hr] at hmem
    | ok =>
      cases q with
      | nil =>
        by_cases hp : c.producerClosed <;> by_cases hc : c.connEofClosed <;>
          simp [dispatchRun, hready, hp, hc] at hmem
      | cons r q' =>
        simp only [List.map_cons, List.mem_cons]
        by_cases hcan : r.cb.is_canceled
        · rw [dispatchRun_canceled_eq bdp c cs r q' hready hcan] at hmem
          simp only [List.mem_cons] at hmem
          rcases hmem with hmem | hmem
          · exact absurd hmem (by simp)
          · exact Or.inr (ih q' hmem)
        · rw [Bool.not_eq_true] at hcan
          cases hsend : c.sendErr with
          | some e =>
            rw [dispatchRun_sendErr_eq bdp c cs r q' e hready hcan hsend] at hmem
            simp only [List.mem_cons] at hmem
            rcases hmem with hmem | hmem | hmem
            · exact Or.inl (by cases hmem; rfl)
            · exact absurd hmem (by simp)
            · exact Or.inr (ih q' hmem)
          | none =>
            rw [dispatchRun_success_eq bdp c cs r q' hready hcan hsend] at hmem
            rw [List.mem_append] at hmem
            rcases hmem with hmem | hmem
            · by_cases h1 : r.body.is_end_stream <;>
                by_cases h2 : c.pipeFirstPollReady <;>
                · simp [successStepEvents, h1, h2] at hmem
                  exact Or.inl hmem.1
            · exact Or.inr (ih q' hmem)

/-- Every spawned response delivery carries the task's own sampler. -/
theorem deliveryEvent_bdp (bdp : Sampler) (cs : List CtrlEnv)
    (q : List PendingReq) (id : Nat) (s : Sampler)
    (hmem : Event.spawnedResponseDelivery id s ∈ (dispatchRun bdp cs q).events) :
    s = bdp := by
  induction cs generalizing q with
  | nil => simp [dispatchRun] at hmem
  | cons c cs ih =>
    cases hready : c.ready with
    | pending => simp [dispatchRun, hready] at hmem
    | err e =>
      by_cases hr : e.reason = some NO_ERROR <;>
        simp [dispatchRun, hready, hr] at hmem
    | ok =>
      cases q with
      | nil =>
        by_cases hp : c.producerClosed <;> by_cases hc : c.connEofClosed <;>
          simp [dispatchRun, hready, hp, hc] at hmem
      | cons r q' =>
        by_cases hcan : r.cb.is_canceled
        · rw [dispatchRun_canceled_eq bdp c cs r q' hready hcan] at hmem
          simp only [List.mem_cons] at hmem
          rcases hmem with hmem | hmem
          · exact absurd hmem (by simp)
          · exact ih q' hmem
        · rw [Bool.not_eq_true] at hcan
          cases hsend : c.sendErr with
          | some e =>
            rw [dispatchRun_sendErr_eq bdp c cs r q' e hready hcan hsend] at hmem
            simp only [List.mem_cons] at hmem
            rcases hmem with hmem | hmem | hmem
            · exact absurd hmem (by simp)
            · exact absurd hmem (by simp)
            · exact ih q' hmem
          | none =>
            rw [dispatchRun_success_eq bdp c cs r q' hready hcan hsend] at hmem
            rw [List.mem_append] at hmem
            rcases hmem with hmem | hmem
            · by_cases h1 : r.body.is_end_stream <;>
                by_cases h2 : c.pipeFirstPollReady <;>
                · simp [successStepEvents, h1, h2] at hmem
                  exact hmem.2
            · exact ih q' hmem

/-! ### Claim theorems -/

/-- C1: when the dispatch task's readiness poll of the multiplexer fails
permanently, it terminates with `Shutdown` (a success value, not an error)
exactly when the closure reason is the protocol's graceful no-error reason,
and terminates with a propagated error for every other closure reason. -/
theorem readiness_error_outcome (bdp : Sampler) (c : CtrlEnv) (cs : List CtrlEnv)
    (q : List PendingReq) (e : H2Error) (h : c.ready = .err e) :
    ((dispatchRun bdp (c :: cs) q).result = .shutdown ↔ e.reason = some NO_ERROR) ∧
    ((dispatchRun bdp (c :: cs) q).result = .failed (.h2 e) ↔
      e.reason ≠ some NO_ERROR) := by
  by_cases hr : e.reason = some NO_ERROR <;> simp [dispatchRun, h, hr]

/-- C1 witness: concrete runs with reason code 0 (graceful) and code 2. -/
theorem readiness_error_outcome_witness :
    ((dispatchRun .disabled [⟨.err ⟨some 0⟩, false, none, false, false⟩] []).result
        = .shutdown ↔ (⟨some 0⟩ : H2Error).reason = some NO_ERROR) ∧
    ((dispatchRun .disabled [⟨.err ⟨some 2⟩, false, none, false, false⟩] []).result
        = .failed (.h2 ⟨some 2⟩) ↔ (⟨some 2⟩ : H2Error).reason ≠ some NO_ERROR) :=
  ⟨(readiness_error_outcome .disabled ⟨.err ⟨some 0⟩, false, none, false, false⟩
      [] [] ⟨some 0⟩ rfl).1,
   (readiness_error_outcome .disabled ⟨.err ⟨some 2⟩, false, none, false, false⟩
      [] [] ⟨some 2⟩ rfl).2⟩

/-- C2: for every request enqueued to the dispatch task, exactly one
callback invocation occurs — counting immediate error sends, the spawned
response-delivery operation, the drop of an already-canceled callback, and
the drop of still-queued requests when the task terminates. -/
theorem exactly_one_callback (bdp : Sampler) (cs : List CtrlEnv)
    (q : List PendingReq) (id : Nat)
    (hone : countIds id q = 1)
    (hterm : (fullRun bdp cs q).2 = .shutdown ∨
      ∃ e, (fullRun bdp cs q).2 = .failed e) :
    countInv id (fullRun bdp cs q).1 = 1 := by
  have h := countInv_add_remaining bdp cs q id
  cases hres : (dispatchRun bdp cs q).result with
  | pending => simp [fullRun, hres] at hterm
  | fuelOut => simp [fullRun, hres] at hterm
  | shutdown =>
    simp only [fullRun, hres, countInv, countIds, List.countP_append,
      List.countP_map] at h ⊢
    have hco : ((fun ev => isInvocation id ev) ∘
          fun (r : PendingReq) => Event.queuedDropped r.cb.id)
        = fun (r : PendingReq) => r.cb.id == id := rfl
    rw [hco]
    simp only [countIds] at hone
    rw [hone] at h
    exact h
  | failed e =>
    simp only [fullRun, hres, countInv, countIds, List.countP_append,
      List.countP_map] at h ⊢
    have hco : ((fun ev => isInvocation id ev) ∘
          fun (r : PendingReq) => Event.queuedDropped r.cb.id)
        = fun (r : PendingReq) => r.cb.id == id := rfl
    rw [hco]
    simp only [countIds] at hone
    rw [hone] at h
    exact h

/-- C2 witness: a one-request queue fully processed to `Shutdown`. -/
theorem exactly_one_callback_witness :
    countIds 7 [⟨⟨⟨true⟩, ⟨none, []⟩⟩, ⟨some 3, false⟩, ⟨7, false⟩⟩] = 1 ∧
    ((fullRun .disabled
        [⟨.ok, false, none, false, false⟩, ⟨.ok, true, none, false, false⟩]
        [⟨⟨⟨true⟩, ⟨none, []⟩⟩, ⟨some 3, false⟩, ⟨7, false⟩⟩]).2 = .shutdown ∨
      ∃ e, (fullRun .disabled
        [⟨.ok, false, none, false, false⟩, ⟨.ok, true, none, false, false⟩]
        [⟨⟨⟨true⟩, ⟨none, []⟩⟩, ⟨some 3, false⟩, ⟨7, false⟩⟩]).2 = .failed e) ∧
    countInv 7 (fullRun .disabled
        [⟨.ok, false, none, false, false⟩, ⟨.ok, true, none, false, false⟩]
        [⟨⟨⟨true⟩, ⟨none, []⟩⟩, ⟨some 3, false⟩, ⟨7, false⟩⟩]).1 = 1 :=
  ⟨by decide, Or.inl (by decide),
    exactly_one_callback .disabled
      [⟨.ok, false, none, false, false⟩, ⟨.ok, true, none, false, false⟩]
      [⟨⟨⟨true⟩, ⟨none, []⟩⟩, ⟨some 3, false⟩, ⟨7, false⟩⟩] 7
      (by decide) (Or.inl (by decide))⟩

/-- C3: for every dequeued non-cancelled request whose body declares an
exact length `L` and that has no existing content-length header, the
dispatch task stamps a content-length header if and only if `L > 0`, or
`L = 0` and the request's method has defined payload semantics; an
already-present header is never overwritten. -/
theorem content_length_stamping (bdp : Sampler) (c : CtrlEnv) (cs : List CtrlEnv)
    (r : PendingReq) (q' : List PendingReq) (L : Nat)
    (hready : c.ready = .ok) (hcan : r.cb.is_canceled = false)
    (hlen : r.body.size_hint_exact = some L) :
    (dispatchRun bdp (c :: cs) (r :: q')).events.head? =
        some (.submitAttempt r.cb.id (processReq r.head r.body)
          r.body.is_end_stream) ∧
    (r.head.headers.content_length = none →
      ((processReq r.head r.body).headers.content_length = some L ↔
        (0 < L ∨ method_has_defined_payload_semantics r.head.method = true))) ∧
    (∀ c0, r.head.headers.content_length = some c0 →
      (processReq r.head r.body).headers.content_length = some c0) := by
  refine ⟨?_, ?_, ?_⟩
  · cases hsend : c.sendErr with
    | some e =>
      rw [dispatchRun_sendErr_eq bdp c cs r q' e hready hcan hsend]
      rfl
    | none =>
      rw [dispatchRun_success_eq bdp c cs r q' hready hcan hsend]
      simp [successStepEvents]
  · intro hnone
    by_cases hL : L = 0
    · by_cases hm : r.head.method.payloadSemantics <;>
        simp [processReq, hlen, strip_connection_headers,
          set_content_length_if_missing, method_has_defined_payload_semantics,
          hnone, hL, hm]
    · simp [processReq, hlen, strip_connection_headers,
        set_content_length_if_missing, method_has_defined_payload_semantics,
        hnone, hL]
      omega
  · intro c0 hc0
    by_cases hL : L = 0 <;>
      by_cases hm : r.head.method.payloadSemantics <;>
        simp [processReq, hlen, strip_connection_headers,
          set_content_length_if_missing, method_has_defined_payload_semantics,
          hc0, hL, hm]

/-- C3 witness: a GET-like request with an explicitly empty body gets no
content-length header; its POST-like twin with body length 3 gets one. -/
theorem content_length_stamping_witness :
    ((processReq ⟨⟨false⟩, ⟨none, []⟩⟩ ⟨some 0, true⟩).headers.content_length
        = some 0 ↔
      (0 < 0 ∨ method_has_defined_payload_semantics (⟨false⟩ : Method) = true)) ∧
    ((processReq ⟨⟨true⟩, ⟨none, []⟩⟩ ⟨some 3, false⟩).headers.content_length
        = some 3 ↔
      (0 < 3 ∨ method_has_defined_payload_semantics (⟨true⟩ : Method) = true)) ∧
    (processReq ⟨⟨true⟩, ⟨some 9, []⟩⟩ ⟨some 3, false⟩).headers.content_length
        = some 9 :=
  ⟨((content_length_stamping .disabled ⟨.ok, false, none, false, false⟩ []
      ⟨⟨⟨false⟩, ⟨none, []⟩⟩, ⟨some 0, true⟩, ⟨1, false⟩⟩ [] 0
      rfl rfl rfl).2.1 rfl),
   ((content_length_stamping .disabled ⟨.ok, false, none, false, false⟩ []
      ⟨⟨⟨true⟩, ⟨none, []⟩⟩, ⟨some 3, false⟩, ⟨2, false⟩⟩ [] 3
      rfl rfl rfl).2.1 rfl),
   ((content_length_stamping .disabled ⟨.ok, false, none, false, false⟩ []
      ⟨⟨⟨true⟩, ⟨some 9, []⟩⟩, ⟨some 3, false⟩, ⟨3, false⟩⟩ [] 3
      rfl rfl rfl).2.2 9 rfl)⟩

/-- C4: a queued request whose callback is already marked cancelled when
dequeued is discarded — the loop re-enters the readiness check with the
rest of the trace — and the multiplexer never receives a submission call
for that request. -/
theorem canceled_never_submitted (bdp : Sampler) (c : CtrlEnv) (cs : List CtrlEnv)
    (r : PendingReq) (q' : List PendingReq)
    (hready : c.ready = .ok) (hcan : r.cb.is_canceled = true)
    (hfresh : r.cb.id ∉ q'.map (fun r' => r'.cb.id)) :
    (dispatchRun bdp (c :: cs) (r :: q')).events =
        .discardedCanceled r.cb.id :: (dispatchRun bdp cs q').events ∧
    (dispatchRun bdp (c :: cs) (r :: q')).result = (dispatchRun bdp cs q').result ∧
    ∀ hd b, Event.submitAttempt r.cb.id hd b ∉
      (dispatchRun bdp (c :: cs) (r :: q')).events := by
  rw [dispatchRun_canceled_eq bdp c cs r q' hready hcan]
  refine ⟨rfl, rfl, ?_⟩
  intro hd b hmem
  simp only [List.mem_cons] at hmem
  rcases hmem with hmem | hmem
  · exact absurd hmem (by simp)
  · exact hfresh (submitAttempt_id_mem bdp cs q' r.cb.id hd b hmem)

/-- C4 witness: a single pre-cancelled request is discarded, the run ends
with `Shutdown`, and no submission event is emitted. -/
theorem canceled_never_submitted_witness :
    (dispatchRun .disabled
        [⟨.ok, true, none, false, false⟩, ⟨.ok, true, none, false, false⟩]
        [⟨⟨⟨true⟩, ⟨none, []⟩⟩, ⟨some 3, false⟩, ⟨5, true⟩⟩]).events =
      .discardedCanceled 5 ::
        (dispatchRun .disabled [⟨.ok, true, none, false, false⟩] []).events ∧
    (dispatchRun .disabled
        [⟨.ok, true, none, false, false⟩, ⟨.ok, true, none, false, false⟩]
        [⟨⟨⟨true⟩, ⟨none, []⟩⟩, ⟨some 3, false⟩, ⟨5, true⟩⟩]).result =
      (dispatchRun .disabled [⟨.ok, true, none, false, false⟩] []).result ∧
    ∀ hd b, Event.submitAttempt 5 hd b ∉
      (dispatchRun .disabled
        [⟨.ok, true, none, false, false⟩, ⟨.ok, true, none, false, false⟩]
        [⟨⟨⟨true⟩, ⟨none, []⟩⟩, ⟨some 3, false⟩, ⟨5, true⟩⟩]).events :=
  canceled_never_submitted .disabled ⟨.ok, true, none, false, false⟩
    [⟨.ok, true, none, false, false⟩]
    ⟨⟨⟨true⟩, ⟨none, []⟩⟩, ⟨some 3, false⟩, ⟨5, true⟩⟩ [] rfl rfl (by simp)

/-- C5: a body-piping task is handed to the scheduler iff the body is not
already at end-of-stream and the pipe does not complete on its single eager
synchronous first poll; a spawned pipe holds a cloned liveness reference
for its whole duration; and the end-of-stream flag passed to the submission
call equals whether the body is already exhausted. -/
theorem body_pipe_spawn (bdp : Sampler) (c : CtrlEnv) (cs : List CtrlEnv)
    (r : PendingReq) (q' : List PendingReq)
    (hready : c.ready = .ok) (hcan : r.cb.is_canceled = false)
    (hsend : c.sendErr = none) :
    (dispatchRun bdp (c :: cs) (r :: q')).events =
        successStepEvents bdp c.pipeFirstPollReady r ++
          (dispatchRun bdp cs q').events ∧
    ((Event.spawnedPipe r.cb.id true ∈
        successStepEvents bdp c.pipeFirstPollReady r) ↔
      (r.body.is_end_stream = false ∧ c.pipeFirstPollReady = false)) ∧
    (∀ i b, Event.spawnedPipe i b ∈ successStepEvents bdp c.pipeFirstPollReady r →
      b = true) ∧
    Event.submitAttempt r.cb.id (processReq r.head r.body) r.body.is_end_stream
      ∈ successStepEvents bdp c.pipeFirstPollReady r := by
  rw [dispatchRun_success_eq bdp c cs r q' hready hcan hsend]
  refine ⟨rfl, ?_, ?_, ?_⟩
  · by_cases h1 : r.body.is_end_stream <;>
      by_cases h2 : c.pipeFirstPollReady <;>
        simp [successStepEvents, h1, h2]
  · intro i b hmem
    by_cases h1 : r.body.is_end_stream <;>
      by_cases h2 : c.pipeFirstPollReady <;>
        · simp [successStepEvents, h1, h2] at hmem
          try exact hmem.2
  · by_cases h1 : r.body.is_end_stream <;>
      by_cases h2 : c.pipeFirstPollReady <;>
        simp [successStepEvents, h1, h2]

/-- C5 witness: a not-exhausted body whose pipe stays pending is spawned
holding the liveness clone; submission carries `eos = false`. -/
theorem body_pipe_spawn_witness :
    ((dispatchRun .disabled [⟨.ok, true, none, false, false⟩]
        [⟨⟨⟨true⟩, ⟨some 3, []⟩⟩, ⟨some 3, false⟩, ⟨4, false⟩⟩]).events =
      successStepEvents .disabled false
          ⟨⟨⟨true⟩, ⟨some 3, []⟩⟩, ⟨some 3, false⟩, ⟨4, false⟩⟩ ++
        (dispatchRun .disabled [] []).events) ∧
    ((Event.spawnedPipe 4 true ∈
        successStepEvents .disabled false
          ⟨⟨⟨true⟩, ⟨some 3, []⟩⟩, ⟨some 3, false⟩, ⟨4, false⟩⟩) ↔
      (false = false ∧ false = false)) :=
  ⟨(body_pipe_spawn .disabled ⟨.ok, true, none, false, false⟩ []
      ⟨⟨⟨true⟩, ⟨some 3, []⟩⟩, ⟨some 3, false⟩, ⟨4, false⟩⟩ [] rfl rfl rfl).1,
   (body_pipe_spawn .disabled ⟨.ok, true, none, false, false⟩ []
      ⟨⟨⟨true⟩, ⟨some 3, []⟩⟩, ⟨some 3, false⟩, ⟨4, false⟩⟩ [] rfl rfl rfl).2.1⟩

/-- C6: with `adaptive_window` true, setup wraps the connection-driving
operation so each poll first asks the estimator and, when a target is
available, applies it as both the advertised and the target window size
before polling the connection's own progress; with `adaptive_window` false,
setup produces a disabled flow-control handle, leaves the operation
unwrapped, never issues a window-resize call, and every delivered response
carries the disabled handle. -/
theorem adaptive_window_wiring (config : Config) (pp : Option Unit)
    (ht : HandshakeTask) (h : handshake config pp = some ht) :
    (config.adaptive_window = true →
      ht.bdp = .enabled ∧ ht.connWrapped = true ∧
      (∀ wnd, connDrivingPoll ht.connWrapped (some wnd) true =
        [ConnEvent.setTargetWindowSize wnd, ConnEvent.setInitialWindowSize wnd,
          ConnEvent.polledConnProgress]) ∧
      (∀ ok, connDrivingPoll ht.connWrapped none ok =
        [ConnEvent.polledConnProgress])) ∧
    (config.adaptive_window = false →
      ht.bdp = .disabled ∧ ht.connWrapped = false ∧
      (∀ est ok, connDrivingPoll ht.connWrapped est ok =
        [ConnEvent.polledConnProgress]) ∧
      (∀ cs q id s,
        Event.spawnedResponseDelivery id s ∈ (dispatchRun ht.bdp cs q).events →
          s = .disabled)) := by
  by_cases ha : config.adaptive_window
  · cases pp with
    | none => simp [handshake, ha] at h
    | some u =>
      simp only [handshake, ha, if_true, Option.some.injEq] at h
      constructor
      · intro _
        refine ⟨by rw [← h], by rw [← h], fun wnd => ?_, fun ok => ?_⟩
        · rw [← h]
          rfl
        · rw [← h]
          rfl
      · intro hfalse
        rw [ha] at hfalse
        exact absurd hfalse (by simp)
  · rw [Bool.not_eq_true] at ha
    simp only [handshake, ha, Bool.false_eq_true, if_false, Option.some.injEq] at h
    constructor
    · intro htrue
      rw [ha] at htrue
      exact absurd htrue (by simp)
    · intro _
      refine ⟨by rw [← h], by rw [← h], fun est ok => ?_, fun cs q id s hmem => ?_⟩
      · rw [← h]
        rfl
      · have hb := deliveryEvent_bdp ht.bdp cs q id s hmem
        rw [hb, ← h]

/-- C6 witness: both configurations at concrete inputs. -/
theorem adaptive_window_wiring_witness :
    (connDrivingPoll true (some 42) true =
      [ConnEvent.setTargetWindowSize 42, ConnEvent.setInitialWindowSize 42,
        ConnEvent.polledConnProgress]) ∧
    ((⟨.disabled, false⟩ : HandshakeTask).bdp = .disabled ∧
      connDrivingPoll false (some 42) true = [ConnEvent.polledConnProgress]) :=
  ⟨((adaptive_window_wiring ⟨true, 5242880, 2097152⟩ (some ()) ⟨.enabled, true⟩
      rfl).1 rfl).2.2.1 42,
   ⟨((adaptive_window_wiring ⟨false, 5242880, 2097152⟩ none ⟨.disabled, false⟩
      rfl).2 rfl).1,
    ((adaptive_window_wiring ⟨false, 5242880, 2097152⟩ none ⟨.disabled, false⟩
      rfl).2 rfl).2.2.1 (some 42) true⟩⟩

/-- C7: the connection-driver task races the connection-driving operation
against the liveness-zero event; if the liveness-zero event fires first it
drops the shutdown sender (closure is the only notification — the payload
type is uninhabited, so no value is ever sent) and only then polls the
operation to completion; if the operation finishes first, the task ends
with no explicit action. -/
theorem conn_task_two_phase :
    conn_task .livenessZero =
      [ConnTaskEvent.droppedShutdownSender,
        ConnTaskEvent.polledConnToCompletion] ∧
    (∀ o, conn_task (.connFinished o) = []) ∧
    (∀ sel v, ConnTaskEvent.sentShutdownValue v ∉ conn_task sel) :=
  ⟨rfl, fun _ => rfl, fun _ v => Empty.elim v⟩

/-- C7 witness: both select outcomes at concrete inputs. -/
theorem conn_task_two_phase_witness :
    conn_task .livenessZero =
      [ConnTaskEvent.droppedShutdownSender,
        ConnTaskEvent.polledConnToCompletion] ∧
    conn_task (.connFinished .success) = [] :=
  ⟨conn_task_two_phase.1, conn_task_two_phase.2.1 .success⟩

/-- C8: when submitting a dequeued request's headers fails, the dispatch
task delivers `(error, no response)` to that request's callback only, then
continues the loop — it does not terminate and the callbacks of requests
with other ids are unaffected by the step. -/
theorem submission_failure_isolated (bdp : Sampler) (c : CtrlEnv)
    (cs : List CtrlEnv) (r : PendingReq) (q' : List PendingReq) (e : H2Error)
    (hready : c.ready = .ok) (hcan : r.cb.is_canceled = false)
    (hsend : c.sendErr = some e) :
    (dispatchRun bdp (c :: cs) (r :: q')).events =
        .submitAttempt r.cb.id (processReq r.head r.body) r.body.is_end_stream ::
          .cbSendErr r.cb.id e none :: (dispatchRun bdp cs q').events ∧
    (dispatchRun bdp (c :: cs) (r :: q')).result =
      (dispatchRun bdp cs q').result ∧
    countInv r.cb.id (dispatchRun bdp (c :: cs) (r :: q')).events =
      1 + countInv r.cb.id (dispatchRun bdp cs q').events ∧
    (∀ id', id' ≠ r.cb.id →
      countInv id' (dispatchRun bdp (c :: cs) (r :: q')).events =
        countInv id' (dispatchRun bdp cs q').events) := by
  rw [dispatchRun_sendErr_eq bdp c cs r q' e hready hcan hsend]
  refine ⟨rfl, rfl, ?_, ?_⟩
  · simp [countInv, List.countP_cons, isInvocation]
    omega
  · intro id' hid
    simp [countInv, List.countP_cons, isInvocation, Ne.symm hid]

/-- C8 witness: one failing submission followed by a second request that
still gets processed. -/
theorem submission_failure_isolated_witness :
    (dispatchRun .disabled
        [⟨.ok, true, some ⟨some 2⟩, false, false⟩, ⟨.ok, true, none, false, false⟩]
        [⟨⟨⟨true⟩, ⟨none, []⟩⟩, ⟨some 3, false⟩, ⟨1, false⟩⟩,
         ⟨⟨⟨true⟩, ⟨none, []⟩⟩, ⟨some 0, true⟩, ⟨2, false⟩⟩]).result =
      (dispatchRun .disabled [⟨.ok, true, none, false, false⟩]
        [⟨⟨⟨true⟩, ⟨none, []⟩⟩, ⟨some 0, true⟩, ⟨2, false⟩⟩]).result ∧
    countInv 2 (dispatchRun .disabled
        [⟨.ok, true, some ⟨some 2⟩, false, false⟩, ⟨.ok, true, none, false, false⟩]
        [⟨⟨⟨true⟩, ⟨none, []⟩⟩, ⟨some 3, false⟩, ⟨1, false⟩⟩,
         ⟨⟨⟨true⟩, ⟨none, []⟩⟩, ⟨some 0, true⟩, ⟨2, false⟩⟩]).events =
      countInv 2 (dispatchRun .disabled [⟨.ok, true, none, false, false⟩]
        [⟨⟨⟨true⟩, ⟨none, []⟩⟩, ⟨some 0, true⟩, ⟨2, false⟩⟩]).events :=
  ⟨(submission_failure_isolated .disabled ⟨.ok, true, some ⟨some 2⟩, false, false⟩
      [⟨.ok, true, none, false, false⟩]
      ⟨⟨⟨true⟩, ⟨none, []⟩⟩, ⟨some 3, false⟩, ⟨1, false⟩⟩
      [⟨⟨⟨true⟩, ⟨none, []⟩⟩, ⟨some 0, true⟩, ⟨2, false⟩⟩]
      ⟨some 2⟩ rfl rfl rfl).2.1,
   (submission_failure_isolated .disabled ⟨.ok, true, some ⟨some 2⟩, false, false⟩
      [⟨.ok, true, none, false, false⟩]
      ⟨⟨⟨true⟩, ⟨none, []⟩⟩, ⟨some 3, false⟩, ⟨1, false⟩⟩
      [⟨⟨⟨true⟩, ⟨none, []⟩⟩, ⟨some 0, true⟩, ⟨2, false⟩⟩]
      ⟨some 2⟩ rfl rfl rfl).2.2.2 2 (by decide)⟩

/-- C9: the shutdown signal is polled only after the inbound queue yields
nothing ready (the run is independent of the signal's state while the queue
has an item or the producer side is fully released); queue exhausted with
producers released ends with `Shutdown`; and a resolved shutdown signal
(the connection-driver terminated, even after a connection error) also ends
the task with `Shutdown`, not an error. -/
theorem shutdown_signal_after_queue (bdp : Sampler) (c : CtrlEnv)
    (cs : List CtrlEnv) (q : List PendingReq) :
    ((q ≠ [] ∨ c.producerClosed = true) →
      ∀ b, dispatchRun bdp ({c with connEofClosed := b} :: cs) q =
        dispatchRun bdp (c :: cs) q) ∧
    ((c.ready = .ok ∧ q = [] ∧ c.producerClosed = true) →
      (dispatchRun bdp (c :: cs) q).result = .shutdown) ∧
    ((c.ready = .ok ∧ q = [] ∧ c.producerClosed = false ∧
        c.connEofClosed = true) →
      (dispatchRun bdp (c :: cs) q).result = .shutdown) := by
  refine ⟨?_, ?_, ?_⟩
  · intro hq b
    cases hready : c.ready with
    | pending => simp [dispatchRun, hready]
    | err e => by_cases hr : e.reason = some NO_ERROR <;> simp [dispatchRun, hready, hr]
    | ok =>
      cases q with
      | nil =>
        rcases hq with hq | hq
        · exact absurd rfl hq
        · simp [dispatchRun, hready, hq]
      | cons r q' =>
        by_cases hcan : r.cb.is_canceled <;>
          cases hsend : c.sendErr <;>
            simp [dispatchRun, hready, hcan, hsend]
  · rintro ⟨hready, rfl, hp⟩
    simp [dispatchRun, hready, hp]
  · rintro ⟨hready, rfl, hp, hc⟩
    simp [dispatchRun, hready, hp, hc]

/-- C9 witness: at a concrete oracle entry, flipping the shutdown-signal
bit does not change a run with a queued item; an empty queue with closed
producers ends with `Shutdown`; an empty queue with only the signal
resolved also ends with `Shutdown`. -/
theorem shutdown_signal_after_queue_witness :
    (dispatchRun .disabled
        [{ ready := .ok, producerClosed := false, sendErr := none,
           pipeFirstPollReady := false, connEofClosed := false }]
        [⟨⟨⟨true⟩, ⟨none, []⟩⟩, ⟨some 0, true⟩, ⟨6, false⟩⟩] =
      dispatchRun .disabled [⟨.ok, false, none, false, false⟩]
        [⟨⟨⟨true⟩, ⟨none, []⟩⟩, ⟨some 0, true⟩, ⟨6, false⟩⟩]) ∧
    (dispatchRun .disabled [⟨.ok, true, none, false, false⟩] []).result =
      .shutdown ∧
    (dispatchRun .disabled [⟨.ok, false, none, false, true⟩] []).result =
      .shutdown :=
  ⟨(shutdown_signal_after_queue .disabled ⟨.ok, false, none, false, false⟩ []
      [⟨⟨⟨true⟩, ⟨none, []⟩⟩, ⟨some 0, true⟩, ⟨6, false⟩⟩]).1
      (Or.inl (by simp)) false,
   (shutdown_signal_after_queue .disabled ⟨.ok, true, none, false, false⟩ []
      []).2.1 ⟨rfl, rfl, rfl⟩,
   (shutdown_signal_after_queue .disabled ⟨.ok, false, none, false, true⟩ []
      []).2.2 ⟨rfl, rfl, rfl, rfl⟩⟩

/-- C10: with `adaptive_window` enabled, setup unconditionally unwraps the
connection's round-trip measurement source right after a successful h2
handshake: an absent source makes the routine panic (no error value), so a
successful setup with `adaptive_window` presupposes the source is present. -/
theorem adaptive_requires_ping_pong (config : Config)
    (h : config.adaptive_window = true) :
    handshake config none = none ∧
    (∀ pp ht, handshake config pp = some ht → pp = some ()) := by
  constructor
  · simp [handshake, h]
  · intro pp ht hh
    cases pp with
    | none => simp [handshake, h] at hh
    | some u => rfl

/-- C10 witness: adaptive configuration with the source absent panics;
with the source present it succeeds. -/
theorem adaptive_requires_ping_pong_witness :
    handshake ⟨true, 5242880, 2097152⟩ none = none ∧
    handshake ⟨true, 5242880, 2097152⟩ (some ()) =
      some ⟨.enabled, true⟩ :=
  ⟨(adaptive_requires_ping_pong ⟨true, 5242880, 2097152⟩ rfl).1, by decide⟩

end HyperH2
